import Mathlib

/-!
Verification development for the Water Quality Predictor application
(`water_quality_prediction.py`).

The program is a single-window GUI around a pre-trained regression model:
`load_model_and_scalers` loads three artifacts, `create_ui` builds the form and
three result labels, and the button handler `predict_water_quality` parses a
temperature string with Python `float`, parses a date string with
`datetime.strptime(date_str, "%Y/%m")`, builds the feature vector
`[temperature, sin(2*pi*month/12), cos(2*pi*month/12), year - 2010]`,
runs it through `X_scaler.transform`, `model.predict` and
`y_scaler.inverse_transform`, and writes the three formatted results into the
labels; `except ValueError` shows an "Input Error" dialog and
`except Exception` shows a "Prediction Error" dialog.

Modelling choices:
* Python floats are modelled by `PyFloat`: an exact rational for finite values
  plus `nan`, `inf`, `ninf` (binary64 rounding of literals is not modelled; the
  claims under study do not depend on it).
* The numeric behaviour of the opaque artifacts (the Keras model and the two
  fitted scalers) is abstracted into an `Artifacts` record of functions that may
  raise exceptions; the handler's control flow and state updates are concrete.
* The exact real-number content of the cyclical month encoding is stated over
  `ℝ` with `Real.sin`/`Real.cos` (`month_sin`, `month_cos`, `input_data`).
-/

namespace WaterQuality

/-- A Python exception value, split by the only distinction the handler in
`predict_water_quality` makes: `ValueError` versus every other exception. -/
inductive PyExc where
  | valueError (msg : String)
  | other (msg : String)
deriving DecidableEq

/-- The message carried by an exception (Python `str(e)`). -/
def PyExc.msg : PyExc → String
  | .valueError m => m
  | .other m => m

/-- A Python float value: finite values as exact rationals, plus the
non-finite values `nan`, `inf` and `-inf`. -/
inductive PyFloat where
  | finite (q : ℚ)
  | nan
  | inf
  | ninf
deriving DecidableEq

/-- Negation of a Python float (used for a leading `-` sign in `float(...)`). -/
def pyNeg : PyFloat → PyFloat
  | .finite q => .finite (-q)
  | .nan => .nan
  | .inf => .ninf
  | .ninf => .inf

/-- ASCII whitespace stripped by Python `float(str)`. -/
def isPyWs (c : Char) : Bool :=
  c = ' ' || c = '\t' || c = '\n' || c = '\r' || c = '\x0b' || c = '\x0c'

/-- Strip leading and trailing whitespace, as `float(str)` does. -/
def trimWs (cs : List Char) : List Char :=
  ((cs.dropWhile isPyWs).reverse.dropWhile isPyWs).reverse

/-- Numeric value of a decimal digit character. -/
def digitVal (c : Char) : ℕ := c.toNat - 48

/-- Consume a maximal run of decimal digits in which a single underscore may
stand between two digits (Python's `digitpart` after its first digit);
returns the digits collected so far and the unconsumed rest. -/
def digitRun (acc : List ℕ) : List Char → List ℕ × List Char
  | '_' :: c :: rest =>
    if c.isDigit then digitRun (acc ++ [digitVal c]) rest else (acc, '_' :: c :: rest)
  | c :: rest =>
    if c.isDigit then digitRun (acc ++ [digitVal c]) rest else (acc, c :: rest)
  | [] => (acc, [])

/-- Python's `digitpart`: a digit followed by digits with optional single
underscores between digits. Fails if the input does not start with a digit. -/
def parseDigitPart (cs : List Char) : Option (List ℕ × List Char) :=
  match cs with
  | c :: rest => if c.isDigit then some (digitRun [digitVal c] rest) else none
  | [] => none

/-- The natural number denoted by a list of decimal digits. -/
def natOfDigits (ds : List ℕ) : ℕ := ds.foldl (fun a d => 10 * a + d) 0

/-- Lower-case a character list (for the case-insensitive `inf`/`infinity`/`nan`
forms accepted by `float(str)`). -/
def lowerStr (cs : List Char) : List Char := cs.map Char.toLower

/-- Parse an optional exponent (`e`/`E`, optional sign, digitpart) that must
extend to the end of the input; absence of an exponent is exponent `0`. -/
def parseExpTail : List Char → Option ℤ
  | [] => some 0
  | c :: rest =>
    if c = 'e' || c = 'E' then
      match rest with
      | '+' :: rest2 =>
        match parseDigitPart rest2 with
        | some (ds, r) => if r = [] then some ((natOfDigits ds : ℤ)) else none
        | none => none
      | '-' :: rest2 =>
        match parseDigitPart rest2 with
        | some (ds, r) => if r = [] then some (-(natOfDigits ds : ℤ)) else none
        | none => none
      | _ =>
        match parseDigitPart rest with
        | some (ds, r) => if r = [] then some ((natOfDigits ds : ℤ)) else none
        | none => none
    else none

/-- Parse Python's `floatnumber` mantissa:
`digitpart ["." [digitpart]]` or `"." digitpart`; returns the digit string's
value `n`, the number `k` of fractional digits (so the mantissa denotes
`n / 10 ^ k`), and the unconsumed rest. -/
def parseMantissa (cs : List Char) : Option ((ℕ × ℕ) × List Char) :=
  match cs with
  | '.' :: rest =>
    match parseDigitPart rest with
    | some (ds, r) => some ((natOfDigits ds, ds.length), r)
    | none => none
  | _ =>
    match parseDigitPart cs with
    | some (ds, r) =>
      match r with
      | '.' :: r2 =>
        match parseDigitPart r2 with
        | some (fs, r3) => some ((natOfDigits (ds ++ fs), fs.length), r3)
        | none => some ((natOfDigits ds, 0), r2)
      | _ => some ((natOfDigits ds, 0), r)
    | none => none

/-- The rational `n / 10 ^ k * 10 ^ e` denoted by a decimal literal, computed
with integer arithmetic and a single `mkRat` (Python's `float` additionally
rounds it to binary64, which is not modelled). -/
def decValue (n : ℕ) (k : ℕ) (e : ℤ) : ℚ :=
  let p : ℤ := e - k
  if 0 ≤ p then mkRat ((n : ℤ) * (10 : ℤ) ^ p.toNat) 1
  else mkRat (n : ℤ) ((10 : ℕ) ^ (-p).toNat)

/-- Parse the unsigned body accepted by `float(str)`: case-insensitive
`inf`, `infinity` or `nan`, or a `floatnumber` with optional exponent. -/
def parsePyFloatBody (cs : List Char) : Option PyFloat :=
  let low := lowerStr cs
  if low = "inf".data || low = "infinity".data then some .inf
  else if low = "nan".data then some .nan
  else
    match parseMantissa cs with
    | some ((n, k), r) =>
      match parseExpTail r with
      | some e => some (.finite (decValue n k e))
      | none => none
    | none => none

/-- Model of Python `float(str)`: strip whitespace, optional sign, then the
unsigned body; `none` models the `ValueError` raised on rejection. -/
def pyFloatParse (s : String) : Option PyFloat :=
  match trimWs s.data with
  | '+' :: rest => parsePyFloatBody rest
  | '-' :: rest => (parsePyFloatBody rest).map pyNeg
  | cs => parsePyFloatBody cs

/-- Model of `datetime.strptime(s, "%Y/%m")` restricted to the fields the
program reads: `%Y` matches exactly four digits, `%m` matches `1[0-2]`,
`0[1-9]` or `[1-9]`, the whole string must be consumed, and year `0` is
rejected by the `datetime` constructor. `none` models the `ValueError`
raised on any mismatch. Returns `(year, month)`. -/
def strptimeYM (s : String) : Option (ℕ × ℕ) :=
  match s.data with
  | [a, b, c, d, '/', m1, m2] =>
    if a.isDigit ∧ b.isDigit ∧ c.isDigit ∧ d.isDigit then
      let y := 1000 * digitVal a + 100 * digitVal b + 10 * digitVal c + digitVal d
      if y = 0 then none
      else if m1 = '1' ∧ '0' ≤ m2 ∧ m2 ≤ '2' then some (y, 10 + digitVal m2)
      else if m1 = '0' ∧ '1' ≤ m2 ∧ m2 ≤ '9' then some (y, digitVal m2)
      else none
    else none
  | [a, b, c, d, '/', m1] =>
    if a.isDigit ∧ b.isDigit ∧ c.isDigit ∧ d.isDigit ∧ '1' ≤ m1 ∧ m1 ≤ '9' then
      let y := 1000 * digitVal a + 100 * digitVal b + 10 * digitVal c + digitVal d
      if y = 0 then none else some (y, digitVal m1)
    else none
  | _ => none

/-! ### The exact real-number content of the feature engineering

`predict_water_quality` computes
`month_sin = np.sin(2 * np.pi * date.month / 12)`,
`month_cos = np.cos(2 * np.pi * date.month / 12)`,
`year = date.year - base_year` with `base_year = 2010`, and
`input_data = np.array([[temperature, month_sin, month_cos, year]])`.
Floating point is idealized to `ℝ`; the single row of the 2-D array is
modelled as a 4-element list. -/

/-- `np.sin(2 * np.pi * month / 12)` over `ℝ`. -/
noncomputable def month_sin (month : ℕ) : ℝ := Real.sin (2 * Real.pi * month / 12)

/-- `np.cos(2 * np.pi * month / 12)` over `ℝ`. -/
noncomputable def month_cos (month : ℕ) : ℝ := Real.cos (2 * Real.pi * month / 12)

/-- The row `[temperature, month_sin, month_cos, year - base_year]` built at
`input_data = np.array([[...]])`, with `base_year = 2010`. -/
noncomputable def input_data (temperature : ℝ) (month year : ℕ) : List ℝ :=
  [temperature, month_sin month, month_cos month, (year : ℝ) - 2010]

/-- The cyclical encoding of a month as a point of the plane. -/
noncomputable def monthEncoding (month : ℕ) : ℝ × ℝ := (month_sin month, month_cos month)

/-- Squared Euclidean distance in the plane. -/
def distSq (p q : ℝ × ℝ) : ℝ := (p.1 - q.1) ^ 2 + (p.2 - q.2) ^ 2

/-! ### The event handlers as state transformers

The opaque artifacts (Keras model, fitted scalers) are a record of functions;
each may raise an exception. `monthSinF`/`monthCosF` are the float values the
program computes for `sin`/`cos` of the month angle (pure float arithmetic
raises no exception). The 2-D arrays of shape (1, n) that the program passes
around are modelled by their single row. -/

/-- The pre-trained artifacts loaded at startup, as black-box functions:
`X_scaler.transform`, `model.predict` and `y_scaler.inverse_transform`
(each on the single row of its (1, n)-shaped argument), together with the
float values of the two trigonometric month features. -/
structure Artifacts where
  monthSinF : ℕ → PyFloat
  monthCosF : ℕ → PyFloat
  X_scaler_transform : List PyFloat → Except PyExc (List PyFloat)
  model_predict : List PyFloat → Except PyExc (List PyFloat)
  y_scaler_inverse_transform : List PyFloat → Except PyExc (List PyFloat)

/-- A modal error dialog (`messagebox.showerror(title, message)`). -/
structure Dialog where
  title : String
  message : String
deriving DecidableEq

/-- The mutable result state of the window: the text of the three result
labels (`result_vars` `'NO3'`, `'SO4'`, `'pH'`). -/
structure AppState where
  no3 : String
  so4 : String
  ph : String
deriving DecidableEq

/-- The state created by `create_ui`: the three labels' initial texts. -/
def initialState : AppState :=
  { no3 := "Nitrate (NO₃): 0.00 mg/L"
    so4 := "Sulphate (SO₄): 0.00 mg/L"
    ph := "pH Value: 0.00" }

/-- Round `a / b` (with `b > 0`) to the nearest integer, ties to even —
the rounding used by Python's fixed-point float formatting. -/
def roundHalfEvenInt (a b : ℤ) : ℤ :=
  let f := Int.fdiv a b
  let r := a - f * b
  if 2 * r < b then f
  else if b < 2 * r then f + 1
  else if f % 2 = 0 then f else f + 1

/-- Render a natural number below 100 as exactly two decimal digits. -/
def natFix2 (n : ℕ) : String :=
  (if n < 10 then "0" else "") ++ toString n

/-- Python's `f"{x:.2f}"` on a finite value, modelled on exact rationals:
round `100 * q` half-to-even, then print with exactly two digits after the
point (binary64 artifacts such as signed zero are not modelled). -/
def fix2Q (q : ℚ) : String :=
  let n := roundHalfEvenInt (100 * q.num) (q.den : ℤ)
  let a := n.natAbs
  (if n < 0 then "-" else "") ++ toString (a / 100) ++ "." ++ natFix2 (a % 100)

/-- Python's `f"{x:.2f}"` on a float, including the non-finite values. -/
def pyFormatFix2 : PyFloat → String
  | .finite q => fix2Q q
  | .nan => "nan"
  | .inf => "inf"
  | .ninf => "-inf"

/-- The feature row `[temperature, month_sin, month_cos, year - base_year]`
as the program's floats: the trigonometric entries are the artifacts' float
values, the year offset `date.year - 2010` is exact integer arithmetic. -/
def input_data_py (art : Artifacts) (temperature : PyFloat) (month year : ℕ) : List PyFloat :=
  [temperature, art.monthSinF month, art.monthCosF month, .finite (mkRat ((year : ℤ) - 2010) 1)]

/-- The body of the `try:` block of `predict_water_quality`, threading the
label state: parse the temperature with `float`, parse the date with
`strptime "%Y/%m"`, build the feature row, run
`X_scaler.transform`, `model.predict`, `y_scaler.inverse_transform`, then
set the three labels one at a time. An uncaught exception is returned
together with the state at the raise point (the three `set` calls are
sequential, so a later failure keeps earlier updates). -/
def predictBody (art : Artifacts) (tempStr dateStr : String) (s : AppState) :
    Except (PyExc × AppState) AppState :=
  match pyFloatParse tempStr with
  | none => .error (.valueError "could not convert string to float", s)
  | some temperature =>
    match strptimeYM dateStr with
    | none => .error (.valueError "time data does not match format", s)
    | some (year, month) =>
      match art.X_scaler_transform (input_data_py art temperature month year) with
      | .error e => .error (e, s)
      | .ok input_normalized =>
        match art.model_predict input_normalized with
        | .error e => .error (e, s)
        | .ok prediction_normalized =>
          match art.y_scaler_inverse_transform prediction_normalized with
          | .error e => .error (e, s)
          | .ok prediction =>
            match prediction[0]? with
            | none => .error (.other "index 0 is out of bounds", s)
            | some p0 =>
              let s1 : AppState :=
                { s with no3 := "Nitrate (NO₃): " ++ pyFormatFix2 p0 ++ " mg/L" }
              match prediction[1]? with
              | none => .error (.other "index 1 is out of bounds", s1)
              | some p1 =>
                let s2 : AppState :=
                  { s1 with so4 := "Sulphate (SO₄): " ++ pyFormatFix2 p1 ++ " mg/L" }
                match prediction[2]? with
                | none => .error (.other "index 2 is out of bounds", s2)
                | some p2 =>
                  .ok { s2 with ph := "pH Value: " ++ pyFormatFix2 p2 }

/-- The full `predict_water_quality` handler: run the body;
`except ValueError` shows the "Input Error" dialog, `except Exception as e`
shows the "Prediction Error" dialog with `str(e)`. The handler always
returns (first component: the dialog it showed, if any) — it never
propagates an exception to the Tk event loop. -/
def predict_water_quality (art : Artifacts) (tempStr dateStr : String) (s : AppState) :
    Option Dialog × AppState :=
  match predictBody art tempStr dateStr s with
  | .ok s2 => (none, s2)
  | .error (.valueError _, s2) =>
    (some ⟨"Input Error", "Please enter valid temperature and date."⟩, s2)
  | .error (.other msg, s2) => (some ⟨"Prediction Error", msg⟩, s2)

/-- `load_model_and_scalers`: run the three loads in order inside `try:`;
on any exception show the "Model Loading Error" dialog with
`f"Could not load model or scalers: {str(e)}"` and `raise` again. The
result's first component is the dialog shown (if any), the second the
re-raised exception or the loaded triple. -/
def load_model_and_scalers {M S : Type} (loadModel : Except PyExc M)
    (loadXScaler loadYScaler : Except PyExc S) :
    Option Dialog × Except PyExc (M × S × S) :=
  match loadModel with
  | .error e =>
    (some ⟨"Model Loading Error", "Could not load model or scalers: " ++ e.msg⟩, .error e)
  | .ok m =>
    match loadXScaler with
    | .error e =>
      (some ⟨"Model Loading Error", "Could not load model or scalers: " ++ e.msg⟩, .error e)
    | .ok xs =>
      match loadYScaler with
      | .error e =>
        (some ⟨"Model Loading Error", "Could not load model or scalers: " ++ e.msg⟩, .error e)
      | .ok ys => (none, .ok (m, xs, ys))

/-- The label states reachable in a session: the state `create_ui` sets up,
and the result of any sequence of Predict clicks with arbitrary entry
contents. -/
inductive Reachable (art : Artifacts) : AppState → Prop where
  | init : Reachable art initialState
  | step (s : AppState) (tempStr dateStr : String) :
      Reachable art s → Reachable art (predict_water_quality art tempStr dateStr s).2

/-- `s` consists of exactly two decimal-digit characters. -/
def isTwoDigitStr (s : String) : Bool :=
  match s.data with
  | [d1, d2] => d1.isDigit && d2.isDigit
  | _ => false

/-- `s` ends in a point followed by exactly two decimal digits — the shape of
a fixed-point number "formatted to exactly two decimal places". -/
def twoDecimalsB (s : String) : Bool :=
  match s.data.reverse with
  | d2 :: d1 :: dot :: _ => dot = '.' && d1.isDigit && d2.isDigit
  | _ => false

/-- A label displays, between the given prefix and unit suffix, a numeric
string with exactly two decimal places. -/
def showsTwoDecimals (pre suf lbl : String) : Prop :=
  ∃ x : String, lbl = pre ++ x ++ suf ∧ twoDecimalsB x = true

/-- Concrete artifacts for witnesses: both scalers act as the identity on the
row and the network returns a fixed finite row. -/
def artId : Artifacts :=
  { monthSinF := fun _ => PyFloat.finite (mkRat 0 1)
    monthCosF := fun _ => PyFloat.finite (mkRat 1 1)
    X_scaler_transform := fun v => .ok v
    model_predict := fun _ =>
      .ok [PyFloat.finite (mkRat 1 1), PyFloat.finite (mkRat 5 2), PyFloat.finite (mkRat 7 1)]
    y_scaler_inverse_transform := fun v => .ok v }

/-- Concrete artifacts whose network output is all-`nan` (as a real network
does on a `nan` input). -/
def artNan : Artifacts :=
  { monthSinF := fun _ => PyFloat.nan
    monthCosF := fun _ => PyFloat.nan
    X_scaler_transform := fun v => .ok v
    model_predict := fun _ => .ok [PyFloat.nan, PyFloat.nan, PyFloat.nan]
    y_scaler_inverse_transform := fun v => .ok v }

/-! ### Helper lemmas -/

/-- Squared distance between two points of the unit circle, by the
subtraction formula for cosine. -/
theorem distSq_sin_cos (a b : ℝ) :
    distSq (Real.sin a, Real.cos a) (Real.sin b, Real.cos b) = 2 - 2 * Real.cos (a - b) := by
  simp only [distSq]
  rw [Real.cos_sub]
  linear_combination Real.sin_sq_add_cos_sq a + Real.sin_sq_add_cos_sq b

/-- If either parse fails, the handler returns the "Input Error" dialog and
the untouched state. -/
theorem predict_invalid (art : Artifacts) (s : AppState) (tempStr dateStr : String)
    (h : pyFloatParse tempStr = none ∨ strptimeYM dateStr = none) :
    predict_water_quality art tempStr dateStr s =
      (some ⟨"Input Error", "Please enter valid temperature and date."⟩, s) := by
  rcases h with h | h
  · simp [predict_water_quality, predictBody, h]
  · cases ht : pyFloatParse tempStr with
    | none => simp [predict_water_quality, predictBody, ht]
    | some t => simp [predict_water_quality, predictBody, ht, h]

/-- If both parses succeed and one of the three artifact calls raises, the
body returns that exception with the untouched state. -/
theorem predictBody_stage_error (art : Artifacts) (s : AppState) (tempStr dateStr : String)
    (t : PyFloat) (year month : ℕ) (e : PyExc)
    (ht : pyFloatParse tempStr = some t)
    (hd : strptimeYM dateStr = some (year, month))
    (herr : art.X_scaler_transform (input_data_py art t month year) = .error e ∨
      (∃ xn, art.X_scaler_transform (input_data_py art t month year) = .ok xn ∧
        art.model_predict xn = .error e) ∨
      (∃ xn pn, art.X_scaler_transform (input_data_py art t month year) = .ok xn ∧
        art.model_predict xn = .ok pn ∧
        art.y_scaler_inverse_transform pn = .error e)) :
    predictBody art tempStr dateStr s = .error (e, s) := by
  rcases herr with h1 | ⟨xn, h1, h2⟩ | ⟨xn, pn, h1, h2, h3⟩
  · simp [predictBody, ht, hd, h1]
  · simp [predictBody, ht, hd, h1, h2]
  · simp [predictBody, ht, hd, h1, h2, h3]

/-! ### The claims -/

/-- C1: for a well-formed input with temperature `t`, month `m` (1 ≤ m ≤ 12)
and year `y`, the engineered feature vector is exactly the 4-element vector
`[t, sin(2π·m/12), cos(2π·m/12), y − 2010]`, in that order, with base year
2010. -/
theorem input_data_formula (t : ℝ) (m y : ℕ) (h1 : 1 ≤ m) (h2 : m ≤ 12) :
    input_data t m y =
      [t, Real.sin (2 * Real.pi * (m : ℝ) / 12), Real.cos (2 * Real.pi * (m : ℝ) / 12),
        ((y : ℝ) - 2010)] ∧
    (input_data t m y).length = 4 :=
  ⟨rfl, rfl⟩

/-- Witness for C1 at temperature 3.5, month 7, year 2024. -/
theorem input_data_formula_checked :
    (1 ≤ 7 ∧ 7 ≤ 12) ∧
    (input_data 3.5 7 2024 =
      [3.5, Real.sin (2 * Real.pi * ((7 : ℕ) : ℝ) / 12),
        Real.cos (2 * Real.pi * ((7 : ℕ) : ℝ) / 12), (((2024 : ℕ) : ℝ) - 2010)] ∧
    (input_data 3.5 7 2024).length = 4) :=
  ⟨⟨by decide, by decide⟩, input_data_formula 3.5 7 2024 (by decide) (by decide)⟩

/-- C9: the cyclical encoding places every month on the unit circle, and each
pair of consecutive months — December/January included — is at the same
squared Euclidean distance as any other adjacent pair. -/
theorem month_encoding_equidistant (m : ℕ) (h1 : 1 ≤ m) (h2 : m ≤ 11) :
    month_sin m ^ 2 + month_cos m ^ 2 = 1 ∧
    distSq (monthEncoding m) (monthEncoding (m + 1)) =
      distSq (monthEncoding 12) (monthEncoding 1) := by
  refine ⟨Real.sin_sq_add_cos_sq _, ?_⟩
  simp only [monthEncoding, month_sin, month_cos]
  rw [distSq_sin_cos, distSq_sin_cos]
  have e1 : 2 * Real.pi * (m : ℝ) / 12 - 2 * Real.pi * ((m + 1 : ℕ) : ℝ) / 12
      = -(Real.pi / 6) := by
    push_cast
    ring
  have e2 : 2 * Real.pi * ((12 : ℕ) : ℝ) / 12 - 2 * Real.pi * ((1 : ℕ) : ℝ) / 12
      = 2 * Real.pi - Real.pi / 6 := by
    push_cast
    ring
  rw [e1, e2, Real.cos_neg, Real.cos_two_pi_sub]

/-- Witness for C9 at month 3. -/
theorem month_encoding_equidistant_checked :
    (1 ≤ 3 ∧ 3 ≤ 11) ∧
    (month_sin 3 ^ 2 + month_cos 3 ^ 2 = 1 ∧
    distSq (monthEncoding 3) (monthEncoding (3 + 1)) =
      distSq (monthEncoding 12) (monthEncoding 1)) :=
  ⟨⟨by decide, by decide⟩, month_encoding_equidistant 3 (by decide) (by decide)⟩

/-- C3: an unparseable temperature or a date not matching `%Y/%m` takes the
input-error path: the "Input Error" modal is shown and the handler returns
normally (with the state unchanged) — no exception escapes. -/
theorem invalid_input_shows_input_error (art : Artifacts) (s : AppState)
    (tempStr dateStr : String)
    (h : pyFloatParse tempStr = none ∨ strptimeYM dateStr = none) :
    predict_water_quality art tempStr dateStr s =
      (some ⟨"Input Error", "Please enter valid temperature and date."⟩, s) :=
  predict_invalid art s tempStr dateStr h

/-- Witness for C3: a non-numeric temperature string. -/
theorem invalid_input_shows_input_error_checked :
    (pyFloatParse "abc" = none ∨ strptimeYM "2024/07" = none) ∧
    predict_water_quality artId "abc" "2024/07" initialState =
      (some ⟨"Input Error", "Please enter valid temperature and date."⟩, initialState) :=
  ⟨Or.inl (by decide),
    invalid_input_shows_input_error artId initialState "abc" "2024/07" (Or.inl (by decide))⟩

/-- C6: on the malformed-input path the three result labels keep exactly the
values they held before the click. -/
theorem input_error_preserves_labels (art : Artifacts) (s : AppState)
    (tempStr dateStr : String)
    (h : pyFloatParse tempStr = none ∨ strptimeYM dateStr = none) :
    (predict_water_quality art tempStr dateStr s).1 =
      some ⟨"Input Error", "Please enter valid temperature and date."⟩ ∧
    (predict_water_quality art tempStr dateStr s).2.no3 = s.no3 ∧
    (predict_water_quality art tempStr dateStr s).2.so4 = s.so4 ∧
    (predict_water_quality art tempStr dateStr s).2.ph = s.ph := by
  rw [predict_invalid art s tempStr dateStr h]
  exact ⟨rfl, rfl, rfl, rfl⟩

/-- Witness for C6: a malformed date string. -/
theorem input_error_preserves_labels_checked :
    (pyFloatParse "3.5" = none ∨ strptimeYM "2024-07" = none) ∧
    ((predict_water_quality artId "3.5" "2024-07" initialState).1 =
      some ⟨"Input Error", "Please enter valid temperature and date."⟩ ∧
    (predict_water_quality artId "3.5" "2024-07" initialState).2.no3 = initialState.no3 ∧
    (predict_water_quality artId "3.5" "2024-07" initialState).2.so4 = initialState.so4 ∧
    (predict_water_quality artId "3.5" "2024-07" initialState).2.ph = initialState.ph) :=
  ⟨Or.inr (by decide),
    input_error_preserves_labels artId initialState "3.5" "2024-07" (Or.inr (by decide))⟩

/-- C4: if loading the model or either scaler raises, `load_model_and_scalers`
shows the "Model Loading Error" dialog and re-raises the same exception; a
missing artifact is never swallowed silently. -/
theorem load_failure_shows_dialog_and_reraises {M S : Type}
    (loadModel : Except PyExc M) (loadXScaler loadYScaler : Except PyExc S) (e : PyExc)
    (h : loadModel = .error e ∨
      (∃ m, loadModel = .ok m ∧ loadXScaler = .error e) ∨
      (∃ m x, loadModel = .ok m ∧ loadXScaler = .ok x ∧ loadYScaler = .error e)) :
    load_model_and_scalers loadModel loadXScaler loadYScaler =
      (some ⟨"Model Loading Error", "Could not load model or scalers: " ++ e.msg⟩,
        .error e) := by
  rcases h with h1 | ⟨m, h1, h2⟩ | ⟨m, x, h1, h2, h3⟩
  · simp [load_model_and_scalers, h1]
  · simp [load_model_and_scalers, h1, h2]
  · simp [load_model_and_scalers, h1, h2, h3]

/-- Witness for C4: the model file is missing. -/
theorem load_failure_shows_dialog_and_reraises_checked :
    ((Except.error (PyExc.other "No such file") : Except PyExc Unit) =
        .error (PyExc.other "No such file") ∨
      (∃ m, (Except.error (PyExc.other "No such file") : Except PyExc Unit) = .ok m ∧
        (Except.ok () : Except PyExc Unit) = .error (PyExc.other "No such file")) ∨
      (∃ m x, (Except.error (PyExc.other "No such file") : Except PyExc Unit) = .ok m ∧
        (Except.ok () : Except PyExc Unit) = .ok x ∧
        (Except.ok () : Except PyExc Unit) = .error (PyExc.other "No such file"))) ∧
    load_model_and_scalers (Except.error (PyExc.other "No such file") : Except PyExc Unit)
        (Except.ok () : Except PyExc Unit) (Except.ok () : Except PyExc Unit) =
      (some ⟨"Model Loading Error",
          "Could not load model or scalers: " ++ (PyExc.other "No such file").msg⟩,
        .error (PyExc.other "No such file")) :=
  ⟨Or.inl rfl,
    load_failure_shows_dialog_and_reraises (Except.error (PyExc.other "No such file"))
      (Except.ok ()) (Except.ok ()) (PyExc.other "No such file") (Or.inl rfl)⟩

/-- C5: an exception raised by scaling, inference or inverse-scaling results
in a modal error dialog, and the handler returns normally — the total return
type of `predict_water_quality` is the no-propagation guarantee. -/
theorem inference_exception_caught (art : Artifacts) (s : AppState)
    (tempStr dateStr : String) (t : PyFloat) (year month : ℕ) (e : PyExc)
    (ht : pyFloatParse tempStr = some t)
    (hd : strptimeYM dateStr = some (year, month))
    (herr : art.X_scaler_transform (input_data_py art t month year) = .error e ∨
      (∃ xn, art.X_scaler_transform (input_data_py art t month year) = .ok xn ∧
        art.model_predict xn = .error e) ∨
      (∃ xn pn, art.X_scaler_transform (input_data_py art t month year) = .ok xn ∧
        art.model_predict xn = .ok pn ∧
        art.y_scaler_inverse_transform pn = .error e)) :
    ∃ d : Dialog, (predict_water_quality art tempStr dateStr s).1 = some d ∧
      (d.title = "Input Error" ∨ d.title = "Prediction Error") := by
  have hb := predictBody_stage_error art s tempStr dateStr t year month e ht hd herr
  cases e with
  | valueError msg =>
    exact ⟨⟨"Input Error", "Please enter valid temperature and date."⟩,
      by simp [predict_water_quality, hb], Or.inl rfl⟩
  | other msg =>
    exact ⟨⟨"Prediction Error", msg⟩, by simp [predict_water_quality, hb], Or.inr rfl⟩

/-- Witness for C5: the scaler rejects the row's shape. -/
theorem inference_exception_caught_checked :
    pyFloatParse "3.5" = some (PyFloat.finite (mkRat 7 2)) ∧
    strptimeYM "2024/07" = some (2024, 7) ∧
    ∃ d : Dialog,
      (predict_water_quality
        { artId with X_scaler_transform := fun _ => .error (PyExc.other "bad shape") }
        "3.5" "2024/07" initialState).1 = some d ∧
      (d.title = "Input Error" ∨ d.title = "Prediction Error") :=
  ⟨by decide, by decide,
    inference_exception_caught
      { artId with X_scaler_transform := fun _ => .error (PyExc.other "bad shape") }
      initialState "3.5" "2024/07" (PyFloat.finite (mkRat 7 2)) 2024 7
      (PyExc.other "bad shape") (by decide) (by decide) (Or.inl rfl)⟩

/-- C7: a `ValueError` raised after parsing — by the scaler, the model or the
inverse scaler — is caught by the same `except ValueError` clause as
malformed input and produces the "Input Error" dialog with the fixed
message, not the "Prediction Error" dialog. -/
theorem late_valueerror_takes_input_error_path (art : Artifacts) (s : AppState)
    (tempStr dateStr : String) (t : PyFloat) (year month : ℕ) (msg : String)
    (ht : pyFloatParse tempStr = some t)
    (hd : strptimeYM dateStr = some (year, month))
    (herr : art.X_scaler_transform (input_data_py art t month year) =
        .error (.valueError msg) ∨
      (∃ xn, art.X_scaler_transform (input_data_py art t month year) = .ok xn ∧
        art.model_predict xn = .error (.valueError msg)) ∨
      (∃ xn pn, art.X_scaler_transform (input_data_py art t month year) = .ok xn ∧
        art.model_predict xn = .ok pn ∧
        art.y_scaler_inverse_transform pn = .error (.valueError msg))) :
    predict_water_quality art tempStr dateStr s =
      (some ⟨"Input Error", "Please enter valid temperature and date."⟩, s) := by
  have hb := predictBody_stage_error art s tempStr dateStr t year month
    (.valueError msg) ht hd herr
  simp [predict_water_quality, hb]

/-- Witness for C7: `X_scaler.transform` raises a `ValueError`. -/
theorem late_valueerror_takes_input_error_path_checked :
    pyFloatParse "3.5" = some (PyFloat.finite (mkRat 7 2)) ∧
    strptimeYM "2024/07" = some (2024, 7) ∧
    predict_water_quality
        { artId with
          X_scaler_transform := fun _ =>
            .error (PyExc.valueError "operands could not be broadcast") }
        "3.5" "2024/07" initialState =
      (some ⟨"Input Error", "Please enter valid temperature and date."⟩, initialState) :=
  ⟨by decide, by decide,
    late_valueerror_takes_input_error_path
      { artId with
        X_scaler_transform := fun _ =>
          .error (PyExc.valueError "operands could not be broadcast") }
      initialState "3.5" "2024/07" (PyFloat.finite (mkRat 7 2)) 2024 7
      "operands could not be broadcast" (by decide) (by decide) (Or.inl rfl)⟩

/-- C2: on a well-formed input the stages run in the documented order —
parse, build the 4-element feature row, `X_scaler.transform`,
`model.predict`, `y_scaler.inverse_transform` — no dialog is shown, and the
three labels display the formatted values at positions 0, 1 and 2 of the
denormalized output. -/
theorem predict_pipeline_order (art : Artifacts) (s : AppState)
    (tempStr dateStr : String) (t : PyFloat) (year month : ℕ)
    (xn pn : List PyFloat) (p0 p1 p2 : PyFloat) (rest : List PyFloat)
    (ht : pyFloatParse tempStr = some t)
    (hd : strptimeYM dateStr = some (year, month))
    (h1 : art.X_scaler_transform (input_data_py art t month year) = .ok xn)
    (h2 : art.model_predict xn = .ok pn)
    (h3 : art.y_scaler_inverse_transform pn = .ok (p0 :: p1 :: p2 :: rest)) :
    (predict_water_quality art tempStr dateStr s).1 = none ∧
    (predict_water_quality art tempStr dateStr s).2.no3 =
      "Nitrate (NO₃): " ++ pyFormatFix2 p0 ++ " mg/L" ∧
    (predict_water_quality art tempStr dateStr s).2.so4 =
      "Sulphate (SO₄): " ++ pyFormatFix2 p1 ++ " mg/L" ∧
    (predict_water_quality art tempStr dateStr s).2.ph =
      "pH Value: " ++ pyFormatFix2 p2 := by
  simp [predict_water_quality, predictBody, ht, hd, h1, h2, h3]

/-- Witness for C2 with identity scalers and a constant network. -/
theorem predict_pipeline_order_checked :
    pyFloatParse "3.5" = some (PyFloat.finite (mkRat 7 2)) ∧
    strptimeYM "2024/07" = some (2024, 7) ∧
    artId.X_scaler_transform
        (input_data_py artId (PyFloat.finite (mkRat 7 2)) 7 2024) =
      .ok (input_data_py artId (PyFloat.finite (mkRat 7 2)) 7 2024) ∧
    ((predict_water_quality artId "3.5" "2024/07" initialState).1 = none ∧
    (predict_water_quality artId "3.5" "2024/07" initialState).2.no3 =
      "Nitrate (NO₃): " ++ pyFormatFix2 (PyFloat.finite (mkRat 1 1)) ++ " mg/L" ∧
    (predict_water_quality artId "3.5" "2024/07" initialState).2.so4 =
      "Sulphate (SO₄): " ++ pyFormatFix2 (PyFloat.finite (mkRat 5 2)) ++ " mg/L" ∧
    (predict_water_quality artId "3.5" "2024/07" initialState).2.ph =
      "pH Value: " ++ pyFormatFix2 (PyFloat.finite (mkRat 7 1))) :=
  ⟨by decide, by decide, rfl,
    predict_pipeline_order artId initialState "3.5" "2024/07"
      (PyFloat.finite (mkRat 7 2)) 2024 7
      (input_data_py artId (PyFloat.finite (mkRat 7 2)) 7 2024)
      [PyFloat.finite (mkRat 1 1), PyFloat.finite (mkRat 5 2), PyFloat.finite (mkRat 7 1)]
      (PyFloat.finite (mkRat 1 1)) (PyFloat.finite (mkRat 5 2)) (PyFloat.finite (mkRat 7 1))
      [] (by decide) (by decide) rfl rfl rfl⟩

/-- C8: temperature validation is exactly Python float parsing — `nan`,
`inf`, `-inf` and whitespace-padded numbers are accepted — and the
(possibly non-finite) value is fed to the scaler instead of taking the
input-error path: with `nan` in the feature row the click succeeds with no
dialog whenever the artifact calls succeed. -/
theorem nonfinite_temperature_accepted (art : Artifacts) (s : AppState)
    (xn pn : List PyFloat) (p0 p1 p2 : PyFloat) (rest : List PyFloat)
    (h1 : art.X_scaler_transform (input_data_py art PyFloat.nan 1 2024) = .ok xn)
    (h2 : art.model_predict xn = .ok pn)
    (h3 : art.y_scaler_inverse_transform pn = .ok (p0 :: p1 :: p2 :: rest)) :
    pyFloatParse "nan" = some PyFloat.nan ∧
    pyFloatParse "inf" = some PyFloat.inf ∧
    pyFloatParse "-inf" = some PyFloat.ninf ∧
    pyFloatParse "  3.5 " = some (PyFloat.finite (mkRat 7 2)) ∧
    (predict_water_quality art "nan" "2024/01" s).1 = none := by
  refine ⟨by decide, by decide, by decide, by decide, ?_⟩
  have ht : pyFloatParse "nan" = some PyFloat.nan := by decide
  have hd : strptimeYM "2024/01" = some (2024, 1) := by decide
  simp [predict_water_quality, predictBody, ht, hd, h1, h2, h3]

/-- Witness for C8 with identity scalers and a constant network. -/
theorem nonfinite_temperature_accepted_checked :
    artId.X_scaler_transform (input_data_py artId PyFloat.nan 1 2024) =
      .ok (input_data_py artId PyFloat.nan 1 2024) ∧
    (pyFloatParse "nan" = some PyFloat.nan ∧
    pyFloatParse "inf" = some PyFloat.inf ∧
    pyFloatParse "-inf" = some PyFloat.ninf ∧
    pyFloatParse "  3.5 " = some (PyFloat.finite (mkRat 7 2)) ∧
    (predict_water_quality artId "nan" "2024/01" initialState).1 = none) :=
  ⟨rfl,
    nonfinite_temperature_accepted artId initialState
      (input_data_py artId PyFloat.nan 1 2024)
      [PyFloat.finite (mkRat 1 1), PyFloat.finite (mkRat 5 2), PyFloat.finite (mkRat 7 1)]
      (PyFloat.finite (mkRat 1 1)) (PyFloat.finite (mkRat 5 2)) (PyFloat.finite (mkRat 7 1))
      [] rfl rfl rfl⟩

/-- Every natural number below 100 renders as exactly two digit characters. -/
theorem isTwoDigit_natFix2 : ∀ n < 100, isTwoDigitStr (natFix2 n) = true := by decide

/-- Appending a point and a two-digit string yields a string that ends in a
point followed by exactly two digits. -/
theorem twoDecimalsB_append (t u : String) (h : isTwoDigitStr u = true) :
    twoDecimalsB (t ++ "." ++ u) = true := by
  unfold isTwoDigitStr at h
  rcases hu : u.data with _ | ⟨d1, _ | ⟨d2, _ | ⟨d3, tl⟩⟩⟩
  · rw [hu] at h
    exact absurd h (by simp)
  · rw [hu] at h
    exact absurd h (by simp)
  · rw [hu] at h
    have h2 : (d1.isDigit && d2.isDigit) = true := h
    unfold twoDecimalsB
    have hdot : (".".data) = ['.'] := rfl
    rw [String.data_append, String.data_append, hu, hdot]
    simp only [List.reverse_append, List.reverse_cons, List.reverse_nil, List.nil_append,
      List.cons_append, List.append_assoc]
    simp [h2]
  · rw [hu] at h
    exact absurd h (by simp)

/-- The fixed-point formatting of any finite value ends in a point followed
by exactly two digits. -/
theorem fix2Q_twoDecimals (q : ℚ) : twoDecimalsB (fix2Q q) = true := by
  unfold fix2Q
  exact twoDecimalsB_append _ _
    (isTwoDigit_natFix2 _ (Nat.mod_lt _ (by norm_num)))

/-- One Predict click either leaves a result label unchanged or sets it to
the formatted shape with its prefix and unit. -/
theorem predict_label_shapes (art : Artifacts) (tempStr dateStr : String) (s : AppState) :
    ((predict_water_quality art tempStr dateStr s).2.no3 = s.no3 ∨
      ∃ v, (predict_water_quality art tempStr dateStr s).2.no3 =
        "Nitrate (NO₃): " ++ pyFormatFix2 v ++ " mg/L") ∧
    ((predict_water_quality art tempStr dateStr s).2.so4 = s.so4 ∨
      ∃ v, (predict_water_quality art tempStr dateStr s).2.so4 =
        "Sulphate (SO₄): " ++ pyFormatFix2 v ++ " mg/L") ∧
    ((predict_water_quality art tempStr dateStr s).2.ph = s.ph ∨
      ∃ v, (predict_water_quality art tempStr dateStr s).2.ph =
        "pH Value: " ++ pyFormatFix2 v) := by
  cases ht : pyFloatParse tempStr with
  | none =>
    simp only [predict_water_quality, predictBody, ht]
    simp
  | some t =>
    cases hd : strptimeYM dateStr with
    | none =>
      simp only [predict_water_quality, predictBody, ht, hd]
      simp
    | some ym =>
      obtain ⟨year, month⟩ := ym
      cases hx : art.X_scaler_transform (input_data_py art t month year) with
      | error e =>
        cases e <;> simp only [predict_water_quality, predictBody, ht, hd, hx] <;> simp
      | ok xn =>
        cases hp : art.model_predict xn with
        | error e =>
          cases e <;> simp only [predict_water_quality, predictBody, ht, hd, hx, hp] <;> simp
        | ok pn =>
          cases hy : art.y_scaler_inverse_transform pn with
          | error e =>
            cases e <;>
              simp only [predict_water_quality, predictBody, ht, hd, hx, hp, hy] <;> simp
          | ok pred =>
            rcases pred with _ | ⟨p0, _ | ⟨p1, _ | ⟨p2, rest⟩⟩⟩ <;>
              simp only [predict_water_quality, predictBody, ht, hd, hx, hp, hy,
                List.getElem?_nil, List.getElem?_cons_zero, List.getElem?_cons_succ] <;>
              refine ⟨?_, ?_, ?_⟩ <;>
              first
                | exact Or.inl rfl
                | exact Or.inl trivial
                | exact Or.inr ⟨_, rfl⟩

/-- A label of the fixed concatenated form shows a two-decimal number only
if its middle part does. -/
theorem showsTwoDecimals_fixed (pre suf v : String)
    (h : showsTwoDecimals pre suf (pre ++ v ++ suf)) : twoDecimalsB v = true := by
  obtain ⟨x, hx, hb⟩ := h
  have hdata := congrArg String.data hx
  simp only [String.data_append] at hdata
  have h2 : pre.data ++ v.data = pre.data ++ x.data := List.append_cancel_right hdata
  have h3 : v = x := String.ext (List.append_cancel_left h2)
  rw [h3]
  exact hb

/-- C10 (amended): every reachable label is the documented prefix/unit
wrapping of the `:.2f` formatting of some float — initially of the value 0,
rendered "0.00" — and for every finite value that formatting has exactly two
decimal places. (For a non-finite value it renders as `nan`/`inf` instead;
see the counterexample.) -/
theorem labels_fix2_invariant (art : Artifacts) (s : AppState) (h : Reachable art s) :
    ((∃ a, s.no3 = "Nitrate (NO₃): " ++ pyFormatFix2 a ++ " mg/L") ∧
      (∃ b, s.so4 = "Sulphate (SO₄): " ++ pyFormatFix2 b ++ " mg/L") ∧
      (∃ c, s.ph = "pH Value: " ++ pyFormatFix2 c)) ∧
    (∀ q : ℚ, twoDecimalsB (pyFormatFix2 (PyFloat.finite q)) = true) ∧
    pyFormatFix2 (PyFloat.finite (mkRat 0 1)) = "0.00" := by
  refine ⟨?_, fun q => fix2Q_twoDecimals q, by decide⟩
  induction h with
  | init =>
    exact ⟨⟨PyFloat.finite (mkRat 0 1), by decide⟩,
      ⟨PyFloat.finite (mkRat 0 1), by decide⟩,
      ⟨PyFloat.finite (mkRat 0 1), by decide⟩⟩
  | step s0 tempStr dateStr hr ih =>
    obtain ⟨⟨a, ha⟩, ⟨b, hb⟩, ⟨c, hc⟩⟩ := ih
    obtain ⟨h1, h2, h3⟩ := predict_label_shapes art tempStr dateStr s0
    refine ⟨?_, ?_, ?_⟩
    · rcases h1 with h1 | ⟨v, hv⟩
      · exact ⟨a, h1.trans ha⟩
      · exact ⟨v, hv⟩
    · rcases h2 with h2 | ⟨v, hv⟩
      · exact ⟨b, h2.trans hb⟩
      · exact ⟨v, hv⟩
    · rcases h3 with h3 | ⟨v, hv⟩
      · exact ⟨c, h3.trans hc⟩
      · exact ⟨v, hv⟩

/-- Witness for the amended C10 at the initial state. -/
theorem labels_fix2_invariant_checked :
    Reachable artId initialState ∧
    (((∃ a, initialState.no3 = "Nitrate (NO₃): " ++ pyFormatFix2 a ++ " mg/L") ∧
      (∃ b, initialState.so4 = "Sulphate (SO₄): " ++ pyFormatFix2 b ++ " mg/L") ∧
      (∃ c, initialState.ph = "pH Value: " ++ pyFormatFix2 c)) ∧
    (∀ q : ℚ, twoDecimalsB (pyFormatFix2 (PyFloat.finite q)) = true) ∧
    pyFormatFix2 (PyFloat.finite (mkRat 0 1)) = "0.00") :=
  ⟨Reachable.init, labels_fix2_invariant artId initialState Reachable.init⟩

/-- Counterexample to C10 as stated: with artifacts whose network emits
`nan` (as a real network does on a `nan` input), one Predict click reaches a
state whose NO₃ label reads "Nitrate (NO₃): nan mg/L" — its displayed value
is not formatted to two decimal places. -/
theorem labels_two_decimals_counterexample :
    Reachable artNan (predict_water_quality artNan "1" "2024/01" initialState).2 ∧
    (predict_water_quality artNan "1" "2024/01" initialState).2.no3 =
      "Nitrate (NO₃): " ++ "nan" ++ " mg/L" ∧
    twoDecimalsB "nan" = false ∧
    ¬ showsTwoDecimals "Nitrate (NO₃): " " mg/L"
        (predict_water_quality artNan "1" "2024/01" initialState).2.no3 := by
  have hs : (predict_water_quality artNan "1" "2024/01" initialState).2.no3 =
      "Nitrate (NO₃): " ++ "nan" ++ " mg/L" := by decide
  refine ⟨Reachable.step _ _ _ Reachable.init, hs, by decide, ?_⟩
  rw [hs]
  intro h
  exact absurd (showsTwoDecimals_fixed _ _ _ h) (by decide)

/-! Concrete checks of the parsing layer. -/

example : pyFloatParse "3.5" = some (.finite (mkRat 7 2)) := by decide
example : pyFloatParse "  3.5 " = some (.finite (mkRat 7 2)) := by decide
example : pyFloatParse "nan" = some .nan := by decide
example : pyFloatParse "inf" = some .inf := by decide
example : pyFloatParse "-inf" = some .ninf := by decide
example : pyFloatParse "Infinity" = some .inf := by decide
example : pyFloatParse "-2.5" = some (.finite (mkRat (-5) 2)) := by decide
example : pyFloatParse "abc" = none := by decide
example : pyFloatParse "" = none := by decide
example : pyFloatParse "1_0.5e-1" = some (.finite (mkRat 21 20)) := by decide
example : pyFloatParse "1_" = none := by decide
example : pyFloatParse "1.e2" = some (.finite (mkRat 100 1)) := by decide
example : pyFloatParse ".5" = some (.finite (mkRat 1 2)) := by decide
example : pyFloatParse "." = none := by decide
example : strptimeYM "2024/07" = some (2024, 7) := by decide
example : strptimeYM "2024/12" = some (2024, 12) := by decide
example : strptimeYM "2024/1" = some (2024, 1) := by decide
example : strptimeYM "2024/13" = none := by decide
example : strptimeYM "2024-07" = none := by decide
example : strptimeYM "0000/01" = none := by decide
example : strptimeYM "24/07" = none := by decide

end WaterQuality
